import Mathlib

/-
Verification of the Persona identity and token lifecycle engine.

Shallow embedding of the persona-server core (TypeScript) into Lean:
  * the SQLite-backed identity and session repositories are modelled as pure
    functions over an explicit database value (a list of rows per table);
    an SQL UPDATE maps every WHERE-matching row and reports the number of
    matched rows, SELECT ... LIMIT 1 takes the first matching row in
    insertion order, INSERT appends;
  * JavaScript strings are Lean strings; the comma-join / comma-split of the
    roles column is modelled at the character-list level, faithful to
    Array.prototype.join(",") and String.prototype.split(",");
  * Date values are Nat millisecond timestamps; JWT iat/exp are second
    timestamps obtained by flooring division, as in jsonwebtoken;
  * SHA-256 (utils/crypto.ts hashToken) is an opaque one-way function and is
    passed as an explicit parameter; randomly generated values (ids, refresh
    tokens) are passed as explicit arguments to the operations that consume
    them;
  * a jsonwebtoken-signed JWT string is represented by its payload together
    with the signing secret; signing is deterministic, verification checks
    the secret and then the expiry, exactly as jwt.sign / jwt.verify do.
-/

namespace Persona

/-- Error codes of the service (src/types.ts, ErrorCode). -/
inductive ErrorCode where
  | NOT_FOUND
  | ALREADY_EXISTS
  | INVALID_INPUT
  | INVALID_TOKEN
  | UNAUTHORIZED
  | FORBIDDEN
  | INTERNAL_ERROR
deriving DecidableEq, Repr

/-- src/types.ts AppError (details/field omitted: never set by the modelled code). -/
structure AppError where
  code : ErrorCode
  message : String
deriving DecidableEq, Repr

/-- src/types.ts Result: success/failure tagged union. -/
inductive Result (T : Type) where
  | success (data : T)
  | failure (error : AppError)
deriving DecidableEq, Repr

/-- Character-level model of JS Array.prototype.join(",") used for the roles
column (update-user-id-and-roles.ts, update-roles-by-user-id.ts). -/
def joinC : List (List Char) → List Char
  | [] => []
  | [p] => p
  | p :: q :: ps => p ++ ',' :: joinC (q :: ps)

/-- Character-level model of JS String.prototype.split(",") used when reading
the roles column back (identity/types.ts mapIdentityToDomain). -/
def splitC : List Char → List (List Char)
  | [] => [[]]
  | c :: cs =>
    if c = ',' then [] :: splitC cs
    else
      match splitC cs with
      | [] => [[c]]
      | p :: ps => (c :: p) :: ps

/-- roles.join(",") on the write path of the identity repository. -/
def rolesToCsv (roles : List String) : String :=
  String.mk (joinC (roles.map String.data))

/-- Read path of mapIdentityToDomain (identity/types.ts): a null or empty
stored value yields [], otherwise split on commas and drop empty entries. -/
def csvToRoles : Option String → List String
  | none => []
  | some s =>
    if s = "" then []
    else ((splitC s.data).map String.mk).filter (fun r => r ≠ "")

/-- identity table row (persona-db schema; timestamps as Nat, the metadata
JSON blob kept as an opaque string). -/
structure IdentityRow where
  id : String
  tenant_id : String
  provider : String
  provider_user_id : String
  email : String
  name : Option String
  profile_image_url : Option String
  user_id : Option String
  roles : Option String
  metadata : Option String
  created_at : Nat
  updated_at : Nat
deriving DecidableEq, Repr

/-- src/types.ts Identity (domain object). -/
structure Identity where
  id : String
  tenantId : String
  provider : String
  providerUserId : String
  email : String
  name : Option String
  profileImageUrl : Option String
  userId : Option String
  roles : List String
  metadata : Option String
  createdAt : Nat
  updatedAt : Nat
deriving DecidableEq, Repr

/-- identity/types.ts mapIdentityToDomain (the JSON decode of metadata is
treated as an opaque passthrough: no claim touches it). -/
def mapIdentityToDomain (row : IdentityRow) : Identity :=
  { id := row.id
    tenantId := row.tenant_id
    provider := row.provider
    providerUserId := row.provider_user_id
    email := row.email
    name := row.name
    profileImageUrl := row.profile_image_url
    userId := row.user_id
    roles := csvToRoles row.roles
    metadata := row.metadata
    createdAt := row.created_at
    updatedAt := row.updated_at }

/-- session table row; revoked is stored as the integer 0/1 exactly as the
SQLite implementation writes it. -/
structure SessionRow where
  id : String
  identity_id : String
  tenant_id : String
  token_hash : String
  expires_at : Nat
  revoked : Nat
  ip_address : Option String
  user_agent : Option String
  created_at : Nat
deriving DecidableEq, Repr

/-- src/types.ts Session (domain object). -/
structure Session where
  id : String
  identityId : String
  tenantId : String
  tokenHash : String
  expiresAt : Nat
  revoked : Bool
  ipAddress : Option String
  userAgent : Option String
  createdAt : Nat
deriving DecidableEq, Repr

/-- session/types.ts mapSessionToDomain: revoked is true iff the stored
integer is 1 (row.revoked === 1 || row.revoked === true). -/
def mapSessionToDomain (row : SessionRow) : Session :=
  { id := row.id
    identityId := row.identity_id
    tenantId := row.tenant_id
    tokenHash := row.token_hash
    expiresAt := row.expires_at
    revoked := row.revoked == 1
    ipAddress := row.ip_address
    userAgent := row.user_agent
    createdAt := row.created_at }

/-- The SQLite database: one list of rows per table, in insertion order. -/
structure Db where
  identities : List IdentityRow
  sessions : List SessionRow
deriving DecidableEq, Repr

/-- identity/find-by-provider.ts: SELECT ... WHERE tenant, provider and
provider_user_id all match, LIMIT 1. -/
def findByProvider (db : Db) (tenantId provider providerUserId : String) :
    Option Identity :=
  ((db.identities.filter (fun i =>
      i.tenant_id == tenantId && i.provider == provider &&
        i.provider_user_id == providerUserId)).head?).map mapIdentityToDomain

/-- identity/find-by-user-id.ts: SELECT ... WHERE tenant_id and user_id match,
LIMIT 1 (a NULL user_id never matches a string parameter). -/
def findByUserId (db : Db) (tenantId userId : String) : Option Identity :=
  ((db.identities.filter (fun i =>
      i.tenant_id == tenantId && i.user_id == some userId)).head?).map
    mapIdentityToDomain

/-- identity/find-by-id.ts: SELECT ... WHERE the id matches, LIMIT 1. -/
def identityFindById (db : Db) (id : String) : Option Identity :=
  ((db.identities.filter (fun i => i.id == id)).head?).map mapIdentityToDomain

/-- identity-repository.ts CreateIdentityData (metadata already stringified). -/
structure CreateIdentityData where
  tenantId : String
  provider : String
  providerUserId : String
  email : String
  name : Option String
  profileImageUrl : Option String
  metadata : Option String
deriving DecidableEq, Repr

/-- identity/create.ts: INSERT a row with user_id and roles NULL, then
re-SELECT it by id; `id` is the freshly generated random id and `now` the
current timestamp.  The fallback argument of getD is unreachable: the row
just inserted always satisfies the re-select. -/
def identityCreate (db : Db) (data : CreateIdentityData) (id : String)
    (now : Nat) : Identity × Db :=
  let row : IdentityRow :=
    { id := id
      tenant_id := data.tenantId
      provider := data.provider
      provider_user_id := data.providerUserId
      email := data.email
      name := data.name
      profile_image_url := data.profileImageUrl
      user_id := none
      roles := none
      metadata := data.metadata
      created_at := now
      updated_at := now }
  let db' : Db := { db with identities := db.identities ++ [row] }
  let fetched := (db'.identities.filter (fun i => i.id == id)).head?
  (mapIdentityToDomain (fetched.getD row), db')

/-- identity/update-roles-by-user-id.ts: UPDATE identity SET roles, updated_at
WHERE tenant_id and user_id match; returns the number of matched rows. -/
def updateRolesByUserId (db : Db) (tenantId userId : String)
    (roles : List String) (now : Nat) : Nat × Db :=
  let rolesCsv := rolesToCsv roles
  let hit := fun (i : IdentityRow) =>
    i.tenant_id == tenantId && i.user_id == some userId
  let count := (db.identities.filter hit).length
  (count,
    { db with
        identities := db.identities.map (fun i =>
          if hit i then { i with roles := some rolesCsv, updated_at := now }
          else i) })

/-- identity/update-user-id-and-roles.ts: UPDATE identity SET user_id, roles,
updated_at WHERE id hit; null when no row matched, otherwise the freshly
re-selected row mapped to the domain. -/
def updateUserIdAndRoles (db : Db) (id userId : String) (roles : List String)
    (now : Nat) : Option Identity × Db :=
  let rolesCsv := rolesToCsv roles
  let hit := fun (i : IdentityRow) => i.id == id
  let changes := (db.identities.filter hit).length
  let db' : Db :=
    { db with
        identities := db.identities.map (fun i =>
          if hit i then
            { i with user_id := some userId, roles := some rolesCsv,
                     updated_at := now }
          else i) }
  if changes = 0 then (none, db')
  else (((db'.identities.filter hit).head?).map mapIdentityToDomain, db')

/-- session-repository.ts CreateSessionData. -/
structure CreateSessionData where
  identityId : String
  tenantId : String
  tokenHash : String
  expiresAt : Nat
  ipAddress : Option String
  userAgent : Option String
deriving DecidableEq, Repr

/-- session/create.ts: INSERT a row with revoked = 0, then re-SELECT it by id;
`id` is the freshly generated random id and `now` the current timestamp. -/
def sessionCreate (db : Db) (data : CreateSessionData) (id : String)
    (now : Nat) : Session × Db :=
  let row : SessionRow :=
    { id := id
      identity_id := data.identityId
      tenant_id := data.tenantId
      token_hash := data.tokenHash
      expires_at := data.expiresAt
      revoked := 0
      ip_address := data.ipAddress
      user_agent := data.userAgent
      created_at := now }
  let db' : Db := { db with sessions := db.sessions ++ [row] }
  let fetched := (db'.sessions.filter (fun s => s.id == id)).head?
  (mapSessionToDomain (fetched.getD row), db')

/-- session/find-by-token-hash.ts: SELECT ... WHERE token_hash hit, LIMIT 1. -/
def findByTokenHash (db : Db) (tokenHash : String) : Option Session :=
  ((db.sessions.filter (fun s => s.token_hash == tokenHash)).head?).map
    mapSessionToDomain

/-- session/find-by-id.ts: SELECT ... WHERE id hit, LIMIT 1. -/
def sessionFindById (db : Db) (id : String) : Option Session :=
  ((db.sessions.filter (fun s => s.id == id)).head?).map mapSessionToDomain

/-- session/revoke.ts: UPDATE session SET revoked = 1 WHERE id hit;
true iff at least one row matched. -/
def revoke (db : Db) (id : String) : Bool × Db :=
  let hit := fun (s : SessionRow) => s.id == id
  let changes := (db.sessions.filter hit).length
  (decide (0 < changes),
    { db with
        sessions := db.sessions.map (fun s =>
          if hit s then { s with revoked := 1 } else s) })

/-- session/revoke-all-by-identity-id.ts: UPDATE session SET revoked = 1
WHERE identity_id hit (no filter on the current revoked value); returns
the number of matched rows. -/
def revokeAllByIdentityId (db : Db) (identityId : String) : Nat × Db :=
  let hit := fun (s : SessionRow) => s.identity_id == identityId
  ((db.sessions.filter hit).length,
    { db with
        sessions := db.sessions.map (fun s =>
          if hit s then { s with revoked := 1 } else s) })

/-- One iteration of the loop in revoke-all-by-user-id.ts: UPDATE session SET
revoked = 1 WHERE identity_id hit AND revoked = 0, adding the number of
matched rows to the running total. -/
def revokeUserStep (acc : Nat × Db) (identityId : String) : Nat × Db :=
  let hit := fun (s : SessionRow) =>
    s.identity_id == identityId && s.revoked == 0
  let changes := (acc.2.sessions.filter hit).length
  (acc.1 + changes,
    { acc.2 with
        sessions := acc.2.sessions.map (fun s =>
          if hit s then { s with revoked := 1 } else s) })

/-- session/revoke-all-by-user-id.ts: select the ids of all identities with
matching tenant_id and user_id, return 0 if there are none, otherwise revoke
each identity's not-yet-revoked sessions in turn and sum the counts. -/
def revokeAllByUserId (db : Db) (tenantId userId : String) : Nat × Db :=
  let ids := (db.identities.filter (fun i =>
      i.tenant_id == tenantId && i.user_id == some userId)).map (fun i => i.id)
  if ids.isEmpty then (0, db)
  else ids.foldl revokeUserStep (0, db)

/-- session/delete-expired.ts: DELETE FROM session WHERE expires_at < now;
returns the number of deleted rows. -/
def deleteExpired (db : Db) (now : Nat) : Nat × Db :=
  let hit := fun (s : SessionRow) => decide (s.expires_at < now)
  ((db.sessions.filter hit).length,
    { db with sessions := db.sessions.filter (fun s => ! hit s) })

/-- token-service.ts JWTPayload (src/types.ts): the claims carried by an
access token, iat/exp in seconds. -/
structure JWTPayload where
  sub : String
  tenant : String
  userId : Option String
  email : String
  name : Option String
  profileImageUrl : Option String
  roles : List String
  sessionId : String
  iat : Nat
  exp : Nat
deriving DecidableEq, Repr

/-- The claims passed to jwt.sign (Omit of JWTPayload without iat/exp). -/
structure JWTClaims where
  sub : String
  tenant : String
  userId : Option String
  email : String
  name : Option String
  profileImageUrl : Option String
  roles : List String
  sessionId : String
deriving DecidableEq, Repr

/-- A jsonwebtoken-signed token string, represented by its payload together
with the secret that signed it; HS256 signing of a fixed payload is
deterministic, so two signed strings are equal iff these components are. -/
structure Jwt where
  payload : JWTPayload
  secret : String
deriving DecidableEq, Repr

/-- jwt.sign(payload, secret, \x7b expiresIn \x7d): iat is the current time in
whole seconds and exp = iat + expiresIn. -/
def jwtSign (claims : JWTClaims) (secret : String) (expiresIn nowMs : Nat) :
    Jwt :=
  { payload :=
      { sub := claims.sub
        tenant := claims.tenant
        userId := claims.userId
        email := claims.email
        name := claims.name
        profileImageUrl := claims.profileImageUrl
        roles := claims.roles
        sessionId := claims.sessionId
        iat := nowMs / 1000
        exp := nowMs / 1000 + expiresIn }
    secret := secret }

/-- Failure modes of jwt.verify as distinguished by verifyAccessToken. -/
inductive JwtError where
  | expired
  | invalidSignature
deriving DecidableEq, Repr

/-- jwt.verify(token, secret): the signature check (the token must have been
signed with the same secret) and then the expiry check (expired once the
clock in seconds reaches exp). -/
def jwtVerify (token : Jwt) (secret : String) (nowMs : Nat) :
    Except JwtError JWTPayload :=
  if token.secret ≠ secret then .error .invalidSignature
  else if token.payload.exp ≤ nowMs / 1000 then .error .expired
  else .ok token.payload

/-- token-service.ts TokenServiceConfig. -/
structure TokenServiceConfig where
  jwtSecret : String
  accessTokenExpiry : String
  refreshTokenExpiry : String
deriving DecidableEq, Repr

/-- Numeric value of a digit string (JS parseInt on a string of digits). -/
def digitsVal (ds : List Char) : Nat :=
  ds.foldl (fun acc c => acc * 10 + (c.toNat - 48)) 0

/-- Seconds per duration unit suffix of token-service.ts parseExpiry. -/
def unitSeconds (c : Char) : Option Nat :=
  if c = 's' then some 1
  else if c = 'm' then some 60
  else if c = 'h' then some 3600
  else if c = 'd' then some 86400
  else if c = 'w' then some 604800
  else none

/-- token-service.ts parseExpiry: an integer plus a unit suffix matched by
the regex (digits then one of smhdw); anything else defaults to 900. -/
def parseExpiry (expiry : String) : Nat :=
  let cs := expiry.data
  match cs.getLast? with
  | none => 900
  | some u =>
    match unitSeconds u with
    | none => 900
    | some k =>
      let ds := cs.dropLast
      if ds.isEmpty then 900
      else if ds.all Char.isDigit then digitsVal ds * k
      else 900

/-- src/types.ts TokenPair; the access token is the signed JWT. -/
structure TokenPair where
  accessToken : Jwt
  refreshToken : String
  expiresIn : Nat
deriving DecidableEq, Repr

/-- token-service.ts generateAccessToken: sign the identity and session
claims with the configured secret and access-token TTL; a pure function of
the identity, the session id and the clock, with no repository access. -/
def generateAccessToken (cfg : TokenServiceConfig) (identity : Identity)
    (sessionId : String) (nowMs : Nat) : Jwt :=
  jwtSign
    { sub := identity.id
      tenant := identity.tenantId
      userId := identity.userId
      email := identity.email
      name := identity.name
      profileImageUrl := identity.profileImageUrl
      roles := identity.roles
      sessionId := sessionId }
    cfg.jwtSecret (parseExpiry cfg.accessTokenExpiry) nowMs

/-- token-service.ts generateTokens: hash the fresh refresh token, create a
session expiring refreshTTL seconds from now, and mint an access token bound
to that session.  `hash` models utils/crypto.ts hashToken; `refreshToken`
and `sessionId` are the freshly generated random values. -/
def generateTokens (cfg : TokenServiceConfig) (hash : String → String)
    (db : Db) (identity : Identity) (refreshToken sessionId : String)
    (nowMs : Nat) (ip ua : Option String) : (TokenPair × Session) × Db :=
  let tokenHash := hash refreshToken
  let expiresAt := nowMs + parseExpiry cfg.refreshTokenExpiry * 1000
  let created := sessionCreate db
    { identityId := identity.id
      tenantId := identity.tenantId
      tokenHash := tokenHash
      expiresAt := expiresAt
      ipAddress := ip
      userAgent := ua } sessionId nowMs
  let accessToken := generateAccessToken cfg identity created.1.id nowMs
  (({ accessToken := accessToken
      refreshToken := refreshToken
      expiresIn := parseExpiry cfg.accessTokenExpiry },
    created.1), created.2)

/-- token-service.ts verifyAccessToken: map the jwt.verify outcome into a
Result, both failure modes carrying the INVALID_TOKEN code. -/
def verifyAccessToken (cfg : TokenServiceConfig) (token : Jwt) (nowMs : Nat) :
    Result JWTPayload :=
  match jwtVerify token cfg.jwtSecret nowMs with
  | .ok decoded => .success decoded
  | .error .expired =>
    .failure { code := .INVALID_TOKEN, message := "Token expired" }
  | .error .invalidSignature =>
    .failure { code := .INVALID_TOKEN, message := "Invalid token" }

/-- token-service.ts validateRefreshToken: hash the presented token, look the
session up by the hash, then check not-found, revoked and expired in that
order; every failure is an INVALID_TOKEN rejection. -/
def validateRefreshToken (hash : String → String) (db : Db) (token : String)
    (nowMs : Nat) : Result Session :=
  let tokenHash := hash token
  match findByTokenHash db tokenHash with
  | none =>
    .failure { code := .INVALID_TOKEN, message := "Invalid refresh token" }
  | some session =>
    if session.revoked then
      .failure { code := .INVALID_TOKEN, message := "Session has been revoked" }
    else if session.expiresAt < nowMs then
      .failure { code := .INVALID_TOKEN, message := "Refresh token expired" }
    else .success session

/-- token-service.ts revokeSession. -/
def revokeSession (db : Db) (sessionId : String) : Result Unit × Db :=
  let r := revoke db sessionId
  (if r.1 then .success ()
   else .failure { code := .NOT_FOUND, message := "Session not found" }, r.2)

/-- token-service.ts revokeAllIdentitySessions: always a success carrying
the repository count. -/
def revokeAllIdentitySessions (db : Db) (identityId : String) :
    Result Nat × Db :=
  let r := revokeAllByIdentityId db identityId
  (.success r.1, r.2)

/-- token-service.ts revokeAllUserSessions: always a success carrying the
repository count. -/
def revokeAllUserSessions (db : Db) (tenantId userId : String) :
    Result Nat × Db :=
  let r := revokeAllByUserId db tenantId userId
  (.success r.1, r.2)

/-- src/types.ts OAuthUserInfo; `raw` is the provider claims object, kept as
the opaque JSON string that JSON.stringify would produce for it. -/
structure OAuthUserInfo where
  id : String
  email : Option String
  name : Option String
  picture : Option String
  raw : String
deriving DecidableEq, Repr

/-- Success payload of auth-service.ts handleOAuthLogin. -/
structure LoginOutcome where
  identity : Identity
  tokens : TokenPair
  isNew : Bool
deriving DecidableEq, Repr

/-- auth-service.ts handleOAuthLogin: look the identity up by
(tenant, provider, provider user id); if absent create it, the email
defaulting to id@provider.local when the provider supplied none; then
generate tokens for the identity.  `identityId`, `refreshToken` and
`sessionId` are the fresh random values consumed on the respective paths. -/
def handleOAuthLogin (cfg : TokenServiceConfig) (hash : String → String)
    (db : Db) (tenantId provider : String) (userInfo : OAuthUserInfo)
    (identityId refreshToken sessionId : String) (nowMs : Nat)
    (ip ua : Option String) : Result LoginOutcome × Db :=
  match findByProvider db tenantId provider userInfo.id with
  | some identity =>
    let g := generateTokens cfg hash db identity refreshToken sessionId nowMs
      ip ua
    (.success { identity := identity, tokens := g.1.1, isNew := false }, g.2)
  | none =>
    let c := identityCreate db
      { tenantId := tenantId
        provider := provider
        providerUserId := userInfo.id
        email := userInfo.email.getD
          (userInfo.id ++ "@" ++ provider ++ ".local")
        name := userInfo.name
        profileImageUrl := userInfo.picture
        metadata := some userInfo.raw } identityId nowMs
    let g := generateTokens cfg hash c.2 c.1 refreshToken sessionId nowMs ip ua
    (.success { identity := c.1, tokens := g.1.1, isNew := true }, g.2)

/-- auth-service.ts linkIdentityToUser: set the identity's user id and roles;
NOT_FOUND when no identity row has the given id; on success generate a fresh
token pair (new session) from the updated identity. -/
def linkIdentityToUser (cfg : TokenServiceConfig) (hash : String → String)
    (db : Db) (identityId userId : String) (roles : List String)
    (refreshToken sessionId : String) (nowMs : Nat) :
    Result (Identity × TokenPair) × Db :=
  let u := updateUserIdAndRoles db identityId userId roles nowMs
  match u.1 with
  | none =>
    (.failure { code := .NOT_FOUND, message := "Identity not found" }, u.2)
  | some identity =>
    let g := generateTokens cfg hash u.2 identity refreshToken sessionId nowMs
      none none
    (.success (identity, g.1.1), g.2)

/-- auth-service.ts updateUserRoles: delegate to the repository and wrap the
count in a success (0 is a valid outcome, not an error). -/
def updateUserRoles (db : Db) (tenantId userId : String)
    (roles : List String) (nowMs : Nat) : Result Nat × Db :=
  let r := updateRolesByUserId db tenantId userId roles nowMs
  (.success r.1, r.2)

/-- config.ts tenant mode, fixed at startup. -/
inductive TenantMode where
  | single
  | multi
deriving DecidableEq, Repr

/-- config.ts TenantConfig (startup validation guarantees exactly one tenant
in single mode and at least one in multi mode). -/
structure TenantConfig where
  mode : TenantMode
  tenants : List String
deriving DecidableEq, Repr

/-- Outcome of the tenant middleware: either the request proceeds with
req.tenant set, or it is rejected with a 400 error message. -/
inductive TenantDecision where
  | resolved (tenant : Option String)
  | rejected (error : String)
deriving DecidableEq, Repr

/-- middleware/tenant.ts createTenantMiddleware, as a function of the
configuration and the optional ?tenant query parameter.  Single mode: any
present parameter (the empty string included) is rejected, otherwise the
single configured tenant is used.  Multi mode: an absent or empty parameter
is rejected as required, a parameter outside the allow-list as invalid,
and a listed parameter resolves to itself. -/
def createTenantMiddleware (cfg : TenantConfig)
    (tenantParam : Option String) : TenantDecision :=
  match cfg.mode with
  | .single =>
    match tenantParam with
    | some _ => .rejected "tenant parameter not allowed in single-tenant mode"
    | none => .resolved cfg.tenants.head?
  | .multi =>
    match tenantParam with
    | none => .rejected "tenant parameter required"
    | some t =>
      if t = "" then .rejected "tenant parameter required"
      else if cfg.tenants.contains t then .resolved (some t)
      else .rejected "invalid tenant"

/-- routes/internal/link.ts body validation (zod): userId between 3 and 20
characters, roles a non-empty array of strings. -/
def linkBodyValid (userId : String) (roles : List String) : Bool :=
  3 ≤ userId.length && userId.length ≤ 20 && !roles.isEmpty

/-- routes/internal/index.ts createInternalRoutes wires the tenant
middleware in front of every internal route, link.ts included, so a link
request passes tenant validation before the handler runs; the handler then
validates the body and calls linkIdentityToUser, never using the resolved
tenant.  Middleware and body rejections are the 400 responses, modelled as
INVALID_INPUT failures that leave the database untouched. -/
def internalLinkRoute (tenantCfg : TenantConfig) (tenantParam : Option String)
    (cfg : TokenServiceConfig) (hash : String → String) (db : Db)
    (identityId userId : String) (roles : List String)
    (refreshToken sessionId : String) (nowMs : Nat) :
    Result (Identity × TokenPair) × Db :=
  match createTenantMiddleware tenantCfg tenantParam with
  | .rejected e => (.failure { code := .INVALID_INPUT, message := e }, db)
  | .resolved _ =>
    if linkBodyValid userId roles then
      linkIdentityToUser cfg hash db identityId userId roles refreshToken
        sessionId nowMs
    else
      (.failure { code := .INVALID_INPUT, message := "Invalid request body" },
        db)

/-- routes/token.ts POST /token/refresh: validate the presented refresh
token, load the session's identity, and mint a new access token for the same
session; no session row is written and the refresh token is not rotated. -/
def refreshRoute (cfg : TokenServiceConfig) (hash : String → String)
    (db : Db) (refreshToken : Option String) (nowMs : Nat) :
    Result Jwt × Db :=
  match refreshToken with
  | none =>
    (.failure { code := .UNAUTHORIZED, message := "No refresh token provided" },
      db)
  | some tok =>
    match validateRefreshToken hash db tok nowMs with
    | .failure e => (.failure e, db)
    | .success session =>
      match identityFindById db session.identityId with
      | none =>
        (.failure { code := .UNAUTHORIZED, message := "Identity not found" },
          db)
      | some identity =>
        (.success (generateAccessToken cfg identity session.id nowMs), db)

/-- C5: Tenant resolver contract: in single mode any present selector (the
empty string included) is rejected with the TenantNotAllowed error and an
absent selector resolves to the single configured tenant; in multi mode an
absent or empty selector is rejected with the TenantRequired error, a
selector outside the allow-list with the TenantNotAllowed ("invalid
tenant") error, and a listed selector resolves to exactly that value; the
decision is a pure function of (mode, allow-list, selector), which the type
of createTenantMiddleware makes manifest. -/
theorem claim_C5_tenant_resolver (cfg : TenantConfig) (t sel : String) :
    (cfg.mode = .single → createTenantMiddleware cfg (some sel) =
      .rejected "tenant parameter not allowed in single-tenant mode") ∧
    (cfg.mode = .single → cfg.tenants = [t] →
      createTenantMiddleware cfg none = .resolved (some t)) ∧
    (cfg.mode = .multi → createTenantMiddleware cfg none =
      .rejected "tenant parameter required") ∧
    (cfg.mode = .multi → createTenantMiddleware cfg (some "") =
      .rejected "tenant parameter required") ∧
    (cfg.mode = .multi → sel ≠ "" → sel ∉ cfg.tenants →
      createTenantMiddleware cfg (some sel) = .rejected "invalid tenant") ∧
    (cfg.mode = .multi → sel ≠ "" → sel ∈ cfg.tenants →
      createTenantMiddleware cfg (some sel) = .resolved (some sel)) := by
  obtain ⟨mode, tenants⟩ := cfg
  refine ⟨?_, ?_, ?_, ?_, ?_, ?_⟩
  · intro h
    subst h
    rfl
  · intro h ht
    subst h
    simp only at ht
    subst ht
    rfl
  · intro h
    subst h
    rfl
  · intro h
    subst h
    rfl
  · intro h hne hmem
    subst h
    simp [createTenantMiddleware, hne, List.contains, List.elem_eq_mem, hmem]
  · intro h hne hmem
    subst h
    simp [createTenantMiddleware, hne, List.contains, List.elem_eq_mem, hmem]

/-- C5 witness: the concrete boundary cases of the tenant resolver. -/
theorem claim_C5_tenant_resolver_witness :
    createTenantMiddleware ⟨.single, ["t1"]⟩ (some "") =
      .rejected "tenant parameter not allowed in single-tenant mode" ∧
    createTenantMiddleware ⟨.single, ["t1"]⟩ none = .resolved (some "t1") ∧
    createTenantMiddleware ⟨.multi, ["a", "b"]⟩ (some "") =
      .rejected "tenant parameter required" ∧
    createTenantMiddleware ⟨.multi, ["a", "b"]⟩ (some "x") =
      .rejected "invalid tenant" ∧
    createTenantMiddleware ⟨.multi, ["a", "b"]⟩ (some "a") =
      .resolved (some "a") := by
  have h1 := claim_C5_tenant_resolver ⟨.single, ["t1"]⟩ "t1" ""
  have h2 := claim_C5_tenant_resolver ⟨.multi, ["a", "b"]⟩ "t1" "x"
  have h3 := claim_C5_tenant_resolver ⟨.multi, ["a", "b"]⟩ "t1" "a"
  exact ⟨h1.1 rfl, h1.2.1 rfl rfl, h2.2.2.2.1 rfl,
    h2.2.2.2.2.1 rfl (by decide) (by decide),
    h3.2.2.2.2.2 rfl (by decide) (by decide)⟩

/-- C1: Cross-tenant isolation of role updates: updateUserRoles returns a
success carrying exactly the number of identity rows whose tenant id and
user id both match (0 being a valid outcome), replaces the stored role set
on exactly those rows, leaves every other identity row (any other tenant in
particular) byte-for-byte unchanged, and writes nothing to the session
table. -/
theorem claim_C1_updateUserRoles_isolation (db : Db)
    (tenantId userId : String) (roles : List String) (now : Nat) :
    ((updateUserRoles db tenantId userId roles now).1 =
      .success ((db.identities.filter (fun i =>
        i.tenant_id == tenantId && i.user_id == some userId)).length)) ∧
    (∀ (k : Nat) (i : IdentityRow), db.identities[k]? = some i →
      i.tenant_id = tenantId → i.user_id = some userId →
      (updateUserRoles db tenantId userId roles now).2.identities[k]? =
        some { i with roles := some (rolesToCsv roles), updated_at := now }) ∧
    (∀ (k : Nat) (i : IdentityRow), db.identities[k]? = some i →
      ¬ (i.tenant_id = tenantId ∧ i.user_id = some userId) →
      (updateUserRoles db tenantId userId roles now).2.identities[k]? =
        some i) ∧
    ((updateUserRoles db tenantId userId roles now).2.sessions =
      db.sessions) := by
  refine ⟨rfl, ?_, ?_, rfl⟩
  · intro k i hk ht hu
    simp only [updateUserRoles, updateRolesByUserId, List.getElem?_map, hk,
      Option.map_some']
    rw [if_pos (by simp [ht, hu])]
  · intro k i hk hno
    simp only [updateUserRoles, updateRolesByUserId, List.getElem?_map, hk,
      Option.map_some']
    rw [if_neg (by simp only [Bool.and_eq_true, beq_iff_eq]; exact hno)]

/-- C1 witness: the spec scenario — identity A in tenant app1 and identity B
in tenant app2 both linked to userId shared; updating roles under app1
returns count 1 and leaves B's row unchanged. -/
theorem claim_C1_updateUserRoles_isolation_witness :
    (updateUserRoles
        { identities :=
            [{ id := "A", tenant_id := "app1", provider := "google",
               provider_user_id := "g1", email := "a@x", name := none,
               profile_image_url := none, user_id := some "shared",
               roles := some "user", metadata := none, created_at := 0,
               updated_at := 0 },
             { id := "B", tenant_id := "app2", provider := "google",
               provider_user_id := "g1", email := "b@x", name := none,
               profile_image_url := none, user_id := some "shared",
               roles := some "user", metadata := none, created_at := 0,
               updated_at := 0 }],
          sessions := [] } "app1" "shared" ["admin"] 9).1 =
      .success 1 ∧
    (updateUserRoles
        { identities :=
            [{ id := "A", tenant_id := "app1", provider := "google",
               provider_user_id := "g1", email := "a@x", name := none,
               profile_image_url := none, user_id := some "shared",
               roles := some "user", metadata := none, created_at := 0,
               updated_at := 0 },
             { id := "B", tenant_id := "app2", provider := "google",
               provider_user_id := "g1", email := "b@x", name := none,
               profile_image_url := none, user_id := some "shared",
               roles := some "user", metadata := none, created_at := 0,
               updated_at := 0 }],
          sessions := [] } "app1" "shared" ["admin"] 9).2.identities[1]? =
      some { id := "B", tenant_id := "app2", provider := "google",
             provider_user_id := "g1", email := "b@x", name := none,
             profile_image_url := none, user_id := some "shared",
             roles := some "user", metadata := none, created_at := 0,
             updated_at := 0 } := by
  have h := claim_C1_updateUserRoles_isolation
    { identities :=
        [{ id := "A", tenant_id := "app1", provider := "google",
           provider_user_id := "g1", email := "a@x", name := none,
           profile_image_url := none, user_id := some "shared",
           roles := some "user", metadata := none, created_at := 0,
           updated_at := 0 },
         { id := "B", tenant_id := "app2", provider := "google",
           provider_user_id := "g1", email := "b@x", name := none,
           profile_image_url := none, user_id := some "shared",
           roles := some "user", metadata := none, created_at := 0,
           updated_at := 0 }],
      sessions := [] } "app1" "shared" ["admin"] 9
  refine ⟨h.1.trans (by decide), ?_⟩
  exact h.2.2.1 1 _ (by decide) (by decide)

theorem splitC_ne_nil (cs : List Char) : splitC cs ≠ [] := by
  induction cs with
  | nil => simp [splitC]
  | cons c cs ih =>
    by_cases h : c = ','
    · simp [splitC, h]
    · simp only [splitC, if_neg h]
      cases hs : splitC cs with
      | nil => simp
      | cons p ps => simp

theorem splitC_of_no_comma (p : List Char) (h : ',' ∉ p) : splitC p = [p] := by
  induction p with
  | nil => rfl
  | cons c cs ih =>
    have hc : ¬ c = ',' := fun e => h (e ▸ List.mem_cons_self c cs)
    have hcs : ',' ∉ cs := fun m => h (List.mem_cons_of_mem c m)
    rw [splitC, if_neg hc, ih hcs]

theorem splitC_append_comma (p t : List Char) (h : ',' ∉ p) :
    splitC (p ++ ',' :: t) = p :: splitC t := by
  induction p with
  | nil => simp [splitC]
  | cons c cs ih =>
    have hc : ¬ c = ',' := fun e => h (e ▸ List.mem_cons_self c cs)
    have hcs : ',' ∉ cs := fun m => h (List.mem_cons_of_mem c m)
    rw [List.cons_append, splitC, if_neg hc, ih hcs]

theorem splitC_joinC (ps : List (List Char)) (hne : ps ≠ [])
    (h : ∀ p ∈ ps, ',' ∉ p) : splitC (joinC ps) = ps := by
  induction ps with
  | nil => cases hne rfl
  | cons p ps ih =>
    cases ps with
    | nil => simpa [joinC] using splitC_of_no_comma p (h p (by simp))
    | cons q qs =>
      rw [joinC, splitC_append_comma p _ (h p (by simp)),
        ih (by simp) (fun r hr => h r (List.mem_cons_of_mem p hr))]

theorem not_comma_of_mem_splitC (cs : List Char) :
    ∀ p ∈ splitC cs, ',' ∉ p := by
  induction cs with
  | nil =>
    intro p hp
    simp only [splitC, List.mem_singleton] at hp
    subst hp
    simp
  | cons c cs ih =>
    intro p hp
    by_cases h : c = ','
    · rw [splitC, if_pos h] at hp
      rcases List.mem_cons.mp hp with hp | hp
      · subst hp; simp
      · exact ih p hp
    · rw [splitC, if_neg h] at hp
      cases hs : splitC cs with
      | nil => exact absurd hs (splitC_ne_nil cs)
      | cons p0 ps =>
        rw [hs] at hp
        rcases List.mem_cons.mp hp with hp | hp
        · subst hp
          intro hmem
          rcases List.mem_cons.mp hmem with e | e
          · exact h e.symm
          · exact ih p0 (hs ▸ List.mem_cons_self p0 ps) e
        · exact ih p (hs ▸ List.mem_cons_of_mem p0 hp)

theorem joinC_ne_nil (ps : List (List Char)) (hne : ps ≠ [])
    (h : ∀ p ∈ ps, p ≠ []) : joinC ps ≠ [] := by
  cases ps with
  | nil => cases hne rfl
  | cons p ps =>
    cases ps with
    | nil => simpa [joinC] using h p (by simp)
    | cons q qs => simp [joinC]

theorem string_ne_empty_iff_data (s : String) : s ≠ "" ↔ s.data ≠ [] := by
  constructor
  · intro h hd
    exact h (String.ext hd)
  · intro h he
    subst he
    exact h rfl

/-- C10: Role-list round-trip caveat: writes store the role list joined with
commas (rolesToCsv, used by updateUserIdAndRoles and updateRolesByUserId),
reads split the stored string on commas and drop empty entries (csvToRoles,
used by mapIdentityToDomain); reading back a written role list returns the
original list if and only if every role is a non-empty string containing no
comma. -/
theorem claim_C10_roles_roundtrip (roles : List String) :
    csvToRoles (some (rolesToCsv roles)) = roles ↔
      ∀ r ∈ roles, r ≠ "" ∧ ',' ∉ r.data := by
  constructor
  · intro h r hr
    by_cases hempty : rolesToCsv roles = ""
    · rw [hempty] at h
      simp only [csvToRoles, if_pos rfl] at h
      rw [← h] at hr
      cases hr
    · simp only [csvToRoles, if_neg hempty] at h
      rw [← h] at hr
      have hfil := List.of_mem_filter hr
      have hmem := List.mem_of_mem_filter hr
      refine ⟨by simpa using hfil, ?_⟩
      rcases List.mem_map.mp hmem with ⟨p, hp, hpr⟩
      have : r.data = p := by rw [← hpr]
      rw [this]
      exact not_comma_of_mem_splitC _ p hp
  · intro h
    cases hroles : roles with
    | nil => rfl
    | cons r0 rest =>
      rw [hroles] at h
      have hparts : ∀ p ∈ (r0 :: rest).map String.data, ',' ∉ p := by
        intro p hp
        rcases List.mem_map.mp hp with ⟨r, hr, hrp⟩
        exact hrp ▸ (h r hr).2
      have hne : rolesToCsv (r0 :: rest) ≠ "" := by
        rw [string_ne_empty_iff_data]
        show joinC ((r0 :: rest).map String.data) ≠ []
        refine joinC_ne_nil _ (by simp) ?_
        intro p hp
        rcases List.mem_map.mp hp with ⟨r, hr, hrp⟩
        rw [← hrp]
        exact (string_ne_empty_iff_data r).mp (h r hr).1
      simp only [csvToRoles, if_neg hne]
      show (((splitC (joinC ((r0 :: rest).map String.data))).map
        String.mk).filter (fun r => r ≠ "")) = r0 :: rest
      rw [splitC_joinC _ (by simp) hparts, List.map_map]
      have hid : (r0 :: rest).map (String.mk ∘ String.data) = r0 :: rest := by
        have hpt : ∀ a ∈ r0 :: rest, (String.mk ∘ String.data) a = id a :=
          fun a _ => rfl
        rw [List.map_congr_left hpt, List.map_id]
      rw [hid]
      rw [List.filter_eq_self.mpr]
      intro a ha
      simpa using (h a ha).1

/-- C10 witness: a comma-free role list round-trips; a role containing a
comma ("a,admin") does not — it reads back as two roles. -/
theorem claim_C10_roles_roundtrip_witness :
    csvToRoles (some (rolesToCsv ["editor", "admin"])) = ["editor", "admin"] ∧
    csvToRoles (some (rolesToCsv ["a,admin"])) ≠ ["a,admin"] := by
  constructor
  · exact (claim_C10_roles_roundtrip ["editor", "admin"]).mpr (by decide)
  · intro hcontra
    have h := (claim_C10_roles_roundtrip ["a,admin"]).mp hcontra
    exact absurd (h "a,admin" (by simp)).2 (by decide)

/-- Each step of the revoke-all-by-user-id loop either leaves a session row
unchanged or sets its revoked flag to 1, and the same holds for the whole
fold. -/
theorem foldl_revokeUserStep_pointwise (ids : List String) (acc : Nat × Db)
    (k : Nat) (s : SessionRow) (hs : acc.2.sessions[k]? = some s) :
    ∃ s', (ids.foldl revokeUserStep acc).2.sessions[k]? = some s' ∧
      (s' = s ∨ s' = { s with revoked := 1 }) := by
  induction ids generalizing acc s with
  | nil => exact ⟨s, hs, Or.inl rfl⟩
  | cons i ids ih =>
    rw [List.foldl_cons]
    have hstep : (revokeUserStep acc i).2.sessions[k]? =
        some (if s.identity_id == i && s.revoked == 0 then
          { s with revoked := 1 } else s) := by
      simp only [revokeUserStep, List.getElem?_map, hs, Option.map_some']
    by_cases hcond : (s.identity_id == i && s.revoked == 0) = true
    · rw [if_pos hcond] at hstep
      rcases ih (revokeUserStep acc i) { s with revoked := 1 } hstep with
        ⟨s', hgot, hcase⟩
      exact ⟨s', hgot, Or.inr (by rcases hcase with h | h <;> rw [h])⟩
    · rw [if_neg hcond] at hstep
      exact ih (revokeUserStep acc i) s hstep

/-- C2: Revocation monotonicity: none of the mutating session operations
(revoke, revokeAllByIdentityId, revokeAllByUserId, create, deleteExpired)
ever turns a session row's revoked flag from 1 back to 0 — updates only set
it to 1, create appends a new row without touching existing ones, and the
expiry sweep only removes rows; consequently once a session is revoked,
validateRefreshToken rejects its refresh token with the revoked
INVALID_TOKEN error at every clock value and for every (arbitrary, hence
also future) expires_at stored on the session. -/
theorem claim_C2_revocation_monotonic :
    (∀ (db : Db) (id : String) (k : Nat) (s s' : SessionRow),
      db.sessions[k]? = some s → (revoke db id).2.sessions[k]? = some s' →
      s.revoked = 1 → s'.revoked = 1) ∧
    (∀ (db : Db) (iid : String) (k : Nat) (s s' : SessionRow),
      db.sessions[k]? = some s →
      (revokeAllByIdentityId db iid).2.sessions[k]? = some s' →
      s.revoked = 1 → s'.revoked = 1) ∧
    (∀ (db : Db) (t u : String) (k : Nat) (s s' : SessionRow),
      db.sessions[k]? = some s →
      (revokeAllByUserId db t u).2.sessions[k]? = some s' →
      s.revoked = 1 → s'.revoked = 1) ∧
    (∀ (db : Db) (data : CreateSessionData) (id : String) (now k : Nat),
      k < db.sessions.length →
      (sessionCreate db data id now).2.sessions[k]? = db.sessions[k]?) ∧
    (∀ (db : Db) (now : Nat) (s' : SessionRow),
      s' ∈ (deleteExpired db now).2.sessions → s' ∈ db.sessions) ∧
    (∀ (hash : String → String) (db : Db) (tok : String) (now : Nat)
      (s : Session), findByTokenHash db (hash tok) = some s →
      s.revoked = true →
      validateRefreshToken hash db tok now =
        .failure { code := .INVALID_TOKEN,
                   message := "Session has been revoked" }) := by
  refine ⟨?_, ?_, ?_, ?_, ?_, ?_⟩
  · intro db id k s s' hs hs' hrev
    simp only [revoke, List.getElem?_map, hs, Option.map_some',
      Option.some_inj] at hs'
    subst hs'
    by_cases hcond : (s.id == id) = true
    · rw [if_pos hcond]
    · rw [if_neg hcond]; exact hrev
  · intro db iid k s s' hs hs' hrev
    simp only [revokeAllByIdentityId, List.getElem?_map, hs, Option.map_some',
      Option.some_inj] at hs'
    subst hs'
    by_cases hcond : (s.identity_id == iid) = true
    · rw [if_pos hcond]
    · rw [if_neg hcond]; exact hrev
  · intro db t u k s s' hs hs' hrev
    simp only [revokeAllByUserId] at hs'
    by_cases hids : ((db.identities.filter (fun i =>
        i.tenant_id == t && i.user_id == some u)).map
          (fun i => i.id)).isEmpty = true
    · rw [if_pos hids] at hs'
      rw [hs] at hs'
      cases hs'
      exact hrev
    · rw [if_neg hids] at hs'
      rcases foldl_revokeUserStep_pointwise _ (0, db) k s hs with
        ⟨s0, hgot, hcase⟩
      rw [hgot] at hs'
      cases hs'
      rcases hcase with h | h <;> rw [h]
      exact hrev
  · intro db data id now k hk
    simp only [sessionCreate]
    exact List.getElem?_append_left hk
  · intro db now s' hmem
    simp only [deleteExpired] at hmem
    exact List.mem_of_mem_filter hmem
  · intro hash db tok now s hfind hrev
    simp only [validateRefreshToken, hfind, hrev]
    rfl

/-- The revoked session row used by the C2 witness. -/
def rowC2 : SessionRow :=
  { id := "s1", identity_id := "i1", tenant_id := "t1", token_hash := "h1",
    expires_at := 999999, revoked := 1, ip_address := none,
    user_agent := none, created_at := 0 }

/-- The database used by the C2 witness. -/
def dbC2 : Db := { identities := [], sessions := [rowC2] }

/-- C2 witness: a concrete revoked session stays revoked through a revoke
call and keeps being rejected at an arbitrary clock, including one far
before its (future) expiry. -/
theorem claim_C2_revocation_monotonic_witness :
    ((revoke dbC2 "s1").2.sessions[0]?.map (fun s => s.revoked) = some 1) ∧
    validateRefreshToken (fun t => t) dbC2 "h1" 5 =
      .failure { code := .INVALID_TOKEN,
                 message := "Session has been revoked" } := by
  have h := claim_C2_revocation_monotonic
  constructor
  · have h1 := h.1 dbC2 "s1" 0 rowC2
    cases hgot : (revoke dbC2 "s1").2.sessions[0]? with
    | none => exact absurd hgot (by decide)
    | some s' =>
      have := h1 s' (by decide) hgot rfl
      simp [this]
  · exact h.2.2.2.2.2 (fun t => t) dbC2 "h1" 5 _ rfl rfl

/-- The boundary session row used by the C3 counterexample: it expires at
exactly the current instant. -/
def rowC3 : SessionRow :=
  { id := "s3", identity_id := "i3", tenant_id := "t3", token_hash := "tok3",
    expires_at := 1000, revoked := 0, ip_address := none, user_agent := none,
    created_at := 0 }

/-- The database used by the C3 counterexample. -/
def dbC3 : Db := { identities := [], sessions := [rowC3] }

/-- C3 counterexample: the claim requires success only when expires_at is
strictly after the current time, but at the boundary instant
expires_at = now the code accepts the token (the guard is
session.expiresAt < new Date(), which is false at equality), so the claimed
iff fails. -/
theorem claim_C3_boundary_counterexample :
    validateRefreshToken (fun t => t) dbC3 "tok3" 1000 =
      .success (mapSessionToDomain rowC3) ∧
    ¬ (1000 < (mapSessionToDomain rowC3).expiresAt) := by
  exact ⟨rfl, by decide⟩

/-- C3 (amended): validateRefreshToken hashes the presented raw token, looks
the session up by that hash, and applies exactly three checks in the order
not-found, then revoked, then expired (each with its own message, the
revoked message taking precedence over expiry); it returns the session iff
the session exists with revoked = false and expires_at at or after the
current time (expires_at ≥ now — acceptance at the boundary instant
included, rejection only when expires_at is strictly earlier than now), and
every failure is an INVALID_TOKEN rejection, never an exception. -/
theorem claim_C3_validateRefreshToken_contract (hash : String → String)
    (db : Db) (tok : String) (now : Nat) :
    (∀ s : Session, validateRefreshToken hash db tok now = .success s →
      findByTokenHash db (hash tok) = some s ∧ s.revoked = false ∧
        now ≤ s.expiresAt) ∧
    (∀ s : Session, findByTokenHash db (hash tok) = some s →
      s.revoked = false → now ≤ s.expiresAt →
      validateRefreshToken hash db tok now = .success s) ∧
    (findByTokenHash db (hash tok) = none →
      validateRefreshToken hash db tok now =
        .failure { code := .INVALID_TOKEN,
                   message := "Invalid refresh token" }) ∧
    (∀ s : Session, findByTokenHash db (hash tok) = some s →
      s.revoked = true →
      validateRefreshToken hash db tok now =
        .failure { code := .INVALID_TOKEN,
                   message := "Session has been revoked" }) ∧
    (∀ s : Session, findByTokenHash db (hash tok) = some s →
      s.revoked = false → s.expiresAt < now →
      validateRefreshToken hash db tok now =
        .failure { code := .INVALID_TOKEN,
                   message := "Refresh token expired" }) ∧
    (∀ e : AppError, validateRefreshToken hash db tok now = .failure e →
      e.code = .INVALID_TOKEN) := by
  have hnone : findByTokenHash db (hash tok) = none →
      validateRefreshToken hash db tok now =
        .failure { code := .INVALID_TOKEN,
                   message := "Invalid refresh token" } := by
    intro hfind
    simp only [validateRefreshToken]
    rw [hfind]
  have hsome : ∀ s0 : Session, findByTokenHash db (hash tok) = some s0 →
      validateRefreshToken hash db tok now =
        if s0.revoked = true then
          .failure { code := .INVALID_TOKEN,
                     message := "Session has been revoked" }
        else if s0.expiresAt < now then
          .failure { code := .INVALID_TOKEN,
                     message := "Refresh token expired" }
        else .success s0 := by
    intro s0 hfind
    simp only [validateRefreshToken]
    rw [hfind]
  refine ⟨?_, ?_, ?_, ?_, ?_, ?_⟩
  · intro s hs
    cases hfind : findByTokenHash db (hash tok) with
    | none => rw [hnone hfind] at hs; cases hs
    | some s0 =>
      rw [hsome s0 hfind] at hs
      by_cases hrev : s0.revoked = true
      · rw [if_pos hrev] at hs; cases hs
      · rw [if_neg hrev] at hs
        by_cases hexp : s0.expiresAt < now
        · rw [if_pos hexp] at hs; cases hs
        · rw [if_neg hexp] at hs
          injection hs with hinj
          subst hinj
          exact ⟨rfl, by simpa using hrev, Nat.le_of_not_lt hexp⟩
  · intro s hfind hrev hexp
    rw [hsome s hfind, if_neg (by simp [hrev]),
      if_neg (Nat.not_lt.mpr hexp)]
  · intro hfind
    exact hnone hfind
  · intro s hfind hrev
    rw [hsome s hfind, if_pos hrev]
  · intro s hfind hrev hexp
    rw [hsome s hfind, if_neg (by simp [hrev]), if_pos hexp]
  · intro e he
    cases hfind : findByTokenHash db (hash tok) with
    | none =>
      rw [hnone hfind] at he
      cases he
      rfl
    | some s0 =>
      rw [hsome s0 hfind] at he
      by_cases hrev : s0.revoked = true
      · rw [if_pos hrev] at he; cases he; rfl
      · rw [if_neg hrev] at he
        by_cases hexp : s0.expiresAt < now
        · rw [if_pos hexp] at he; cases he; rfl
        · rw [if_neg hexp] at he; cases he

/-- C3 witness: the contract applied to a concrete database — a live
session is accepted and a missing token is rejected with the not-found
message. -/
theorem claim_C3_validateRefreshToken_contract_witness :
    validateRefreshToken (fun t => t) dbC3 "tok3" 400 =
      .success (mapSessionToDomain rowC3) ∧
    validateRefreshToken (fun t => t) dbC3 "absent" 400 =
      .failure { code := .INVALID_TOKEN,
                 message := "Invalid refresh token" } := by
  have h1 := claim_C3_validateRefreshToken_contract (fun t => t) dbC3 "tok3" 400
  have h2 :=
    claim_C3_validateRefreshToken_contract (fun t => t) dbC3 "absent" 400
  exact ⟨h1.2.1 (mapSessionToDomain rowC3) rfl rfl (by decide),
    h2.2.2.1 rfl⟩

/-- C4: Token round-trip: for every identity, verifying the access token
produced by generateTokens with the same configured secret (at the issuing
instant, with a positive configured access-token TTL) succeeds and yields
the token's claims payload, whose sub equals the identity's id, whose
tenant equals the identity's tenant id, and whose sessionId equals the id
of the session created by that same call. -/
theorem claim_C4_token_roundtrip (cfg : TokenServiceConfig)
    (hash : String → String) (db : Db) (identity : Identity)
    (rt sid : String) (now : Nat) (ip ua : Option String)
    (h : 0 < parseExpiry cfg.accessTokenExpiry) :
    verifyAccessToken cfg
        (generateTokens cfg hash db identity rt sid now ip ua).1.1.accessToken
        now =
      .success
        (generateTokens cfg hash db identity rt sid now ip
          ua).1.1.accessToken.payload ∧
    (generateTokens cfg hash db identity rt sid now ip
      ua).1.1.accessToken.payload.sub = identity.id ∧
    (generateTokens cfg hash db identity rt sid now ip
      ua).1.1.accessToken.payload.tenant = identity.tenantId ∧
    (generateTokens cfg hash db identity rt sid now ip
      ua).1.1.accessToken.payload.sessionId =
      (generateTokens cfg hash db identity rt sid now ip ua).1.2.id := by
  refine ⟨?_, rfl, rfl, rfl⟩
  simp only [generateTokens, generateAccessToken, jwtSign, verifyAccessToken,
    jwtVerify]
  rw [if_neg (by simp), if_neg (by omega)]

/-- C4 witness: the round-trip at a concrete configuration and identity. -/
theorem claim_C4_token_roundtrip_witness :
    0 < parseExpiry "15m" ∧
    verifyAccessToken
        { jwtSecret := "secret", accessTokenExpiry := "15m",
          refreshTokenExpiry := "7d" }
        (generateTokens
          { jwtSecret := "secret", accessTokenExpiry := "15m",
            refreshTokenExpiry := "7d" }
          (fun t => t) { identities := [], sessions := [] }
          (mapIdentityToDomain
            { id := "i4", tenant_id := "t4", provider := "google",
              provider_user_id := "g4", email := "a@b", name := none,
              profile_image_url := none, user_id := none, roles := none,
              metadata := none, created_at := 0, updated_at := 0 })
          "rt4" "sess4" 123456 none none).1.1.accessToken 123456 =
      .success
        (generateTokens
          { jwtSecret := "secret", accessTokenExpiry := "15m",
            refreshTokenExpiry := "7d" }
          (fun t => t) { identities := [], sessions := [] }
          (mapIdentityToDomain
            { id := "i4", tenant_id := "t4", provider := "google",
              provider_user_id := "g4", email := "a@b", name := none,
              profile_image_url := none, user_id := none, roles := none,
              metadata := none, created_at := 0, updated_at := 0 })
          "rt4" "sess4" 123456 none none).1.1.accessToken.payload := by
  refine ⟨by decide, ?_⟩
  exact (claim_C4_token_roundtrip
    { jwtSecret := "secret", accessTokenExpiry := "15m",
      refreshTokenExpiry := "7d" }
    (fun t => t) { identities := [], sessions := [] }
    (mapIdentityToDomain
      { id := "i4", tenant_id := "t4", provider := "google",
        provider_user_id := "g4", email := "a@b", name := none,
        profile_image_url := none, user_id := none, roles := none,
        metadata := none, created_at := 0, updated_at := 0 })
    "rt4" "sess4" 123456 none none (by decide)).1

/-- A database holding one already linked identity, used by the C6 witness. -/
def dbC6 : Db :=
  { identities :=
      [{ id := "I1", tenant_id := "t1", provider := "google",
         provider_user_id := "g-1", email := "g-1@google.local",
         name := none, profile_image_url := none, user_id := some "alice",
         roles := some "user", metadata := none, created_at := 0,
         updated_at := 0 }],
    sessions := [] }

/-- C6: Identity resolution on OAuth login: handleOAuthLogin looks the
identity up by (tenant, provider, subject).  If present it reuses the
existing identity unchanged — the identity table is untouched, so a later
login for the same key returns the same identity id with any previously
linked userId and roles intact.  If absent it creates one whose email
defaults to subject@provider.local when the provider supplies none, with no
downstream user id and an empty role list (the freshly generated identity
id assumed not to collide with an existing row). -/
theorem claim_C6_identity_resolution (cfg : TokenServiceConfig)
    (hash : String → String) (db : Db) (tenantId provider : String)
    (userInfo : OAuthUserInfo) (iid rt sid : String) (now : Nat)
    (ip ua : Option String) :
    (∀ ident : Identity,
      findByProvider db tenantId provider userInfo.id = some ident →
      (handleOAuthLogin cfg hash db tenantId provider userInfo iid rt sid now
          ip ua).1 =
        .success { identity := ident,
                   tokens := (generateTokens cfg hash db ident rt sid now ip
                     ua).1.1,
                   isNew := false } ∧
      (handleOAuthLogin cfg hash db tenantId provider userInfo iid rt sid now
          ip ua).2.identities = db.identities) ∧
    (findByProvider db tenantId provider userInfo.id = none →
      (∀ r ∈ db.identities, r.id ≠ iid) →
      ∃ out : LoginOutcome,
        (handleOAuthLogin cfg hash db tenantId provider userInfo iid rt sid
            now ip ua).1 = .success out ∧
        out.isNew = true ∧
        out.identity.id = iid ∧
        out.identity.tenantId = tenantId ∧
        out.identity.provider = provider ∧
        out.identity.providerUserId = userInfo.id ∧
        out.identity.userId = none ∧
        out.identity.roles = [] ∧
        out.identity.email =
          userInfo.email.getD (userInfo.id ++ "@" ++ provider ++ ".local")) := by
  constructor
  · intro ident hfind
    constructor
    · simp only [handleOAuthLogin, hfind]
    · simp only [handleOAuthLogin, hfind, generateTokens, sessionCreate]
  · intro hfind hfresh
    have hfilter : db.identities.filter (fun i => i.id == iid) = [] := by
      rw [List.filter_eq_nil_iff]
      intro a ha
      simp [hfresh a ha]
    have hcreate : (identityCreate db
        { tenantId := tenantId, provider := provider,
          providerUserId := userInfo.id,
          email := userInfo.email.getD
            (userInfo.id ++ "@" ++ provider ++ ".local"),
          name := userInfo.name, profileImageUrl := userInfo.picture,
          metadata := some userInfo.raw } iid now).1 =
        mapIdentityToDomain
          { id := iid, tenant_id := tenantId, provider := provider,
            provider_user_id := userInfo.id,
            email := userInfo.email.getD
              (userInfo.id ++ "@" ++ provider ++ ".local"),
            name := userInfo.name, profile_image_url := userInfo.picture,
            user_id := none, roles := none, metadata := some userInfo.raw,
            created_at := now, updated_at := now } := by
      simp only [identityCreate, List.filter_append, hfilter,
        List.nil_append]
      rw [List.filter_cons_of_pos (by simp)]
      rfl
    simp only [handleOAuthLogin, hfind]
    refine ⟨_, rfl, rfl, ?_, ?_, ?_, ?_, ?_, ?_, ?_⟩ <;> rw [hcreate] <;> rfl

/-- C6 witness: the spec first-login scenario (subject g-1, no email claim,
tenant t1) creates an identity with email g-1@google.local, no userId and
empty roles; and a relogin against a database already holding a linked
identity reuses it with userId and roles intact. -/
theorem claim_C6_identity_resolution_witness :
    (∃ out : LoginOutcome,
      (handleOAuthLogin
          { jwtSecret := "secret", accessTokenExpiry := "15m",
            refreshTokenExpiry := "7d" }
          (fun t => t) { identities := [], sessions := [] } "t1" "google"
          { id := "g-1", email := none, name := none, picture := none,
            raw := "\x7b\x7d" } "newid" "rt6" "sess6" 50 none none).1 =
        .success out ∧
      out.isNew = true ∧ out.identity.id = "newid" ∧
      out.identity.email = "g-1@google.local" ∧
      out.identity.userId = none ∧ out.identity.roles = []) ∧
    (∀ ident : Identity,
      findByProvider dbC6 "t1" "google" "g-1" = some ident →
      (handleOAuthLogin
          { jwtSecret := "secret", accessTokenExpiry := "15m",
            refreshTokenExpiry := "7d" }
          (fun t => t) dbC6 "t1" "google"
          { id := "g-1", email := none, name := none, picture := none,
            raw := "\x7b\x7d" } "newid" "rt6" "sess6" 50 none none).1 =
        .success { identity := ident,
                   tokens := (generateTokens
                     { jwtSecret := "secret", accessTokenExpiry := "15m",
                       refreshTokenExpiry := "7d" }
                     (fun t => t) dbC6 ident "rt6" "sess6" 50 none
                     none).1.1,
                   isNew := false }) := by
  constructor
  · rcases (claim_C6_identity_resolution
        { jwtSecret := "secret", accessTokenExpiry := "15m",
          refreshTokenExpiry := "7d" }
        (fun t => t) { identities := [], sessions := [] } "t1" "google"
        { id := "g-1", email := none, name := none, picture := none,
          raw := "\x7b\x7d" } "newid" "rt6" "sess6" 50 none none).2
        rfl (by intro r hr; cases hr) with
      ⟨out, hout, hnew, hid, _, _, _, huser, hroles, hemail⟩
    exact ⟨out, hout, hnew, hid, hemail, huser, hroles⟩
  · intro ident hfind
    exact ((claim_C6_identity_resolution
      { jwtSecret := "secret", accessTokenExpiry := "15m",
        refreshTokenExpiry := "7d" }
      (fun t => t) dbC6 "t1" "google"
      { id := "g-1", email := none, name := none, picture := none,
        raw := "\x7b\x7d" } "newid" "rt6" "sess6" 50 none none).1 ident
      hfind).1

theorem mem_of_head?_eq_some {α : Type} {l : List α} {a : α}
    (h : l.head? = some a) : a ∈ l := by
  rcases List.head?_eq_some_iff.mp h with ⟨ys, hys⟩
  rw [hys]
  exact List.mem_cons_self a ys

/-- The token-service configuration used by the C7 theorems. -/
def cfgC7 : TokenServiceConfig :=
  { jwtSecret := "secret", accessTokenExpiry := "15m",
    refreshTokenExpiry := "7d" }

/-- The identity used by the C7 theorems. -/
def identC7 : Identity :=
  { id := "i7", tenantId := "t7", provider := "google",
    providerUserId := "g7", email := "c@d", name := none,
    profileImageUrl := none, userId := none, roles := [], metadata := none,
    createdAt := 0, updatedAt := 0 }

/-- C7 counterexample: re-minting twice for the same session at two distinct
call times that fall within the same wall-clock second yields the identical
access token, because jwt.sign is deterministic and iat has second
granularity — refuting the claim that two calls always yield two different
access tokens. -/
theorem claim_C7_same_second_counterexample :
    generateAccessToken cfgC7 identC7 "sess7" 5000 =
      generateAccessToken cfgC7 identC7 "sess7" 5999 ∧
    (5000 : Nat) ≠ 5999 := ⟨rfl, by decide⟩

/-- C7 (amended): Refresh non-rotation: the refresh route never writes to
the store (the database after the call is the one before it, so the Session
row and its refresh-token hash are unchanged and validateRefreshToken
behaves identically afterwards); generateAccessToken is a pure function
with no repository access whose two results differ precisely when the issue
times fall in different whole seconds (within one second the deterministic
signature makes them identical); and a successful refresh returns exactly
the re-minted access token of the validated session's identity. -/
theorem claim_C7_refresh_non_rotation :
    (∀ (cfg : TokenServiceConfig) (hash : String → String) (db : Db)
      (rt : Option String) (now : Nat),
      (refreshRoute cfg hash db rt now).2 = db) ∧
    (∀ (cfg : TokenServiceConfig) (identity : Identity) (sid : String)
      (n1 n2 : Nat), n1 / 1000 ≠ n2 / 1000 →
      generateAccessToken cfg identity sid n1 ≠
        generateAccessToken cfg identity sid n2) ∧
    (∀ (cfg : TokenServiceConfig) (hash : String → String) (db : Db)
      (rt : Option String) (now : Nat) (tok : String) (now2 : Nat),
      validateRefreshToken hash (refreshRoute cfg hash db rt now).2 tok now2 =
        validateRefreshToken hash db tok now2) ∧
    (∀ (cfg : TokenServiceConfig) (hash : String → String) (db : Db)
      (tok : String) (now : Nat) (j : Jwt),
      (refreshRoute cfg hash db (some tok) now).1 = .success j →
      ∃ (session : Session) (identity : Identity),
        validateRefreshToken hash db tok now = .success session ∧
        identityFindById db session.identityId = some identity ∧
        j = generateAccessToken cfg identity session.id now) := by
  have ha : ∀ (cfg : TokenServiceConfig) (hash : String → String) (db : Db)
      (rt : Option String) (now : Nat),
      (refreshRoute cfg hash db rt now).2 = db := by
    intro cfg hash db rt now
    cases rt with
    | none => rfl
    | some tok =>
      simp only [refreshRoute]
      split
      · rfl
      · split
        · rfl
        · rfl
  refine ⟨ha, ?_, ?_, ?_⟩
  · intro cfg identity sid n1 n2 hne heq
    exact hne (congrArg (fun j => j.payload.iat) heq)
  · intro cfg hash db rt now tok now2
    rw [ha cfg hash db rt now]
  · intro cfg hash db tok now j hj
    simp only [refreshRoute] at hj
    split at hj
    · cases hj
    · rename_i session heq
      split at hj
      · cases hj
      · rename_i identity heq2
        injection hj with hinj
        exact ⟨session, identity, heq, heq2, hinj.symm⟩

/-- C7 witness: the non-rotation facts at a concrete database and two
concrete mint times in different seconds. -/
theorem claim_C7_refresh_non_rotation_witness :
    (refreshRoute cfgC7 (fun t => t)
        { identities := [], sessions := [] } (some "rt7") 2000).2 =
      { identities := [], sessions := [] } ∧
    generateAccessToken cfgC7 identC7 "sess7" 5000 ≠
      generateAccessToken cfgC7 identC7 "sess7" 6000 ∧
    validateRefreshToken (fun t => t)
        (refreshRoute cfgC7 (fun t => t)
          { identities := [], sessions := [] } (some "rt7") 2000).2
        "rt7" 2500 =
      validateRefreshToken (fun t => t)
        { identities := [], sessions := [] } "rt7" 2500 := by
  have h := claim_C7_refresh_non_rotation
  exact ⟨h.1 cfgC7 (fun t => t) { identities := [], sessions := [] }
      (some "rt7") 2000,
    h.2.1 cfgC7 identC7 "sess7" 5000 6000 (by decide),
    h.2.2.1 cfgC7 (fun t => t) { identities := [], sessions := [] }
      (some "rt7") 2000 "rt7" 2500⟩

/-- The identity returned by a successful updateUserIdAndRoles carries the
requested user id and the CSV-round-tripped roles, its id is the requested
one, and the session table is untouched. -/
theorem updateUserIdAndRoles_success (db : Db) (id0 userId : String)
    (roles : List String) (now : Nat) (ident : Identity)
    (h : (updateUserIdAndRoles db id0 userId roles now).1 = some ident) :
    ident.id = id0 ∧ ident.userId = some userId ∧
    ident.roles = csvToRoles (some (rolesToCsv roles)) := by
  simp only [updateUserIdAndRoles] at h
  by_cases hch : (db.identities.filter (fun i => i.id == id0)).length = 0
  · rw [if_pos hch] at h
    cases h
  · rw [if_neg hch] at h
    cases hrow : ((db.identities.map (fun i : IdentityRow =>
        if (i.id == id0) = true then
          { i with user_id := some userId, roles := some (rolesToCsv roles),
                   updated_at := now }
        else i)).filter (fun i => i.id == id0)).head? with
    | none => rw [hrow] at h; cases h
    | some row =>
      rw [hrow] at h
      simp only [Option.map_some', Option.some_inj] at h
      subst h
      have hmem := mem_of_head?_eq_some hrow
      have hfil := List.of_mem_filter hmem
      have hmem2 := List.mem_of_mem_filter hmem
      rcases List.mem_map.mp hmem2 with ⟨orig, horig, hfo⟩
      by_cases hhit : (orig.id == id0) = true
      · rw [if_pos hhit] at hfo
        subst hfo
        exact ⟨by simpa using hfil, rfl, rfl⟩
      · rw [if_neg hhit] at hfo
        subst hfo
        exact absurd hfil hhit

/-- The session table is unchanged by updateUserIdAndRoles. -/
theorem updateUserIdAndRoles_sessions (db : Db) (id0 userId : String)
    (roles : List String) (now : Nat) :
    (updateUserIdAndRoles db id0 userId roles now).2.sessions =
      db.sessions := by
  simp only [updateUserIdAndRoles]
  by_cases hch : (db.identities.filter (fun i => i.id == id0)).length = 0
  · rw [if_pos hch]
  · rw [if_neg hch]

/-- The session returned by sessionCreate always carries the requested id:
either the re-select finds a row matching the id filter, or the fallback is
the inserted row itself. -/
theorem sessionCreate_id (db : Db) (data : CreateSessionData) (sid : String)
    (now : Nat) : (sessionCreate db data sid now).1.id = sid := by
  simp only [sessionCreate]
  cases hf : ((db.sessions ++
      [({ id := sid, identity_id := data.identityId,
          tenant_id := data.tenantId, token_hash := data.tokenHash,
          expires_at := data.expiresAt, revoked := 0,
          ip_address := data.ipAddress, user_agent := data.userAgent,
          created_at := now } : SessionRow)]).filter
        (fun s => s.id == sid)).head? with
  | none => rfl
  | some r =>
    have hmem := mem_of_head?_eq_some hf
    have hfil := List.of_mem_filter hmem
    simpa [mapSessionToDomain] using hfil

/-- When no identity row matches an id, the id-keyed update is a no-op
returning null and the database value is unchanged. -/
theorem updateUserIdAndRoles_not_found (db : Db) (id0 userId : String)
    (roles : List String) (now : Nat)
    (hfresh : ∀ r ∈ db.identities, r.id ≠ id0) :
    updateUserIdAndRoles db id0 userId roles now = (none, db) := by
  have hfilter : db.identities.filter (fun i => i.id == id0) = [] := by
    rw [List.filter_eq_nil_iff]
    intro a ha
    simp [hfresh a ha]
  have hmap : db.identities.map (fun i =>
      if (i.id == id0) = true then
        { i with user_id := some userId, roles := some (rolesToCsv roles),
                 updated_at := now }
      else i) = db.identities := by
    have h1 : ∀ i ∈ db.identities, (fun i =>
        if (i.id == id0) = true then
          { i with user_id := some userId, roles := some (rolesToCsv roles),
                   updated_at := now }
        else i) i = id i := by
      intro i hi
      simp [hfresh i hi]
    rw [List.map_congr_left h1, List.map_id]
  simp only [updateUserIdAndRoles, hfilter, hmap, List.length_nil, if_pos]

/-- The session row appended by generateTokens. -/
theorem generateTokens_sessions (cfg : TokenServiceConfig)
    (hash : String → String) (db0 : Db) (identity : Identity)
    (rt sid : String) (now : Nat) (ip ua : Option String) :
    (generateTokens cfg hash db0 identity rt sid now ip ua).2.sessions =
      db0.sessions ++
        [{ id := sid, identity_id := identity.id,
           tenant_id := identity.tenantId, token_hash := hash rt,
           expires_at := now + parseExpiry cfg.refreshTokenExpiry * 1000,
           revoked := 0, ip_address := ip, user_agent := ua,
           created_at := now }] := rfl

/-- The access token minted by generateTokens carries the id of the created
session, which is always the freshly supplied session id. -/
theorem generateTokens_sessionId (cfg : TokenServiceConfig)
    (hash : String → String) (db0 : Db) (identity : Identity)
    (rt sid : String) (now : Nat) (ip ua : Option String) :
    (generateTokens cfg hash db0 identity rt sid now ip
      ua).1.1.accessToken.payload.sessionId = sid := by
  simp only [generateTokens, generateAccessToken, jwtSign]
  exact sessionCreate_id db0 _ sid now

/-- The identity row used by the C8 counterexample and witness. -/
def rowC8 : IdentityRow :=
  { id := "id8", tenant_id := "app1", provider := "google",
    provider_user_id := "g8", email := "x@y", name := none,
    profile_image_url := none, user_id := none, roles := none,
    metadata := none, created_at := 0, updated_at := 0 }

/-- The database used by the C8 counterexample and witness. -/
def dbC8 : Db := { identities := [rowC8], sessions := [] }

/-- The token-service configuration used by the C8 theorems. -/
def cfgC8 : TokenServiceConfig :=
  { jwtSecret := "s8", accessTokenExpiry := "15m",
    refreshTokenExpiry := "7d" }

/-- C8 counterexample: in multi-tenant mode the internal route stack rejects
a link request that lacks a tenant selector with the tenant-required error
before it ever reaches linkIdentityToUser — refuting the claim that a link
request is never rejected for lacking one. -/
theorem claim_C8_tenant_required_counterexample :
    internalLinkRoute { mode := .multi, tenants := ["app1", "app2"] } none
        cfgC8 (fun t => t) dbC8 "id8" "alice" ["user"] "rt8" "sess8" 7 =
      (.failure { code := .INVALID_INPUT,
                  message := "tenant parameter required" }, dbC8) := rfl

/-- C8 (amended): Linking contract: linkIdentityToUser sets the identity's
user id and stores the joined role set, fails with NotFound (leaving the
database unchanged) when no identity has that id, and on success mints a
fresh token pair backed by a newly created session whose claims reflect the
updated identity; the service-level operation itself consults no tenant
selector (the handler ignores the resolved tenant entirely), but the
internal route stack runs the tenant middleware first, so in single-tenant
mode a selector-less link request reaches the service while in multi-tenant
mode it is rejected with the tenant-required error before the service
runs. -/
theorem claim_C8_link_contract (cfg : TokenServiceConfig)
    (hash : String → String) (db : Db) (identityId userId : String)
    (roles : List String) (rt sid : String) (now : Nat) :
    ((∀ r ∈ db.identities, r.id ≠ identityId) →
      linkIdentityToUser cfg hash db identityId userId roles rt sid now =
        (.failure { code := .NOT_FOUND, message := "Identity not found" },
          db)) ∧
    (∀ (ident : Identity) (tokens : TokenPair) (db' : Db),
      linkIdentityToUser cfg hash db identityId userId roles rt sid now =
        (.success (ident, tokens), db') →
      ident.id = identityId ∧
      ident.userId = some userId ∧
      ident.roles = csvToRoles (some (rolesToCsv roles)) ∧
      tokens.refreshToken = rt ∧
      tokens.accessToken.payload.sub = ident.id ∧
      tokens.accessToken.payload.userId = ident.userId ∧
      tokens.accessToken.payload.roles = ident.roles ∧
      tokens.accessToken.payload.sessionId = sid ∧
      (∃ srow : SessionRow, db'.sessions = db.sessions ++ [srow] ∧
        srow.id = sid ∧ srow.identity_id = ident.id ∧
        srow.token_hash = hash rt ∧ srow.revoked = 0)) ∧
    (∀ tcfg : TenantConfig, tcfg.mode = .single →
      linkBodyValid userId roles = true →
      internalLinkRoute tcfg none cfg hash db identityId userId roles rt sid
          now =
        linkIdentityToUser cfg hash db identityId userId roles rt sid now) ∧
    (∀ tcfg : TenantConfig, tcfg.mode = .multi →
      internalLinkRoute tcfg none cfg hash db identityId userId roles rt sid
          now =
        (.failure { code := .INVALID_INPUT,
                    message := "tenant parameter required" }, db)) ∧
    (∀ (tcfg : TenantConfig) (p1 p2 : Option String) (x y : Option String),
      createTenantMiddleware tcfg p1 = .resolved x →
      createTenantMiddleware tcfg p2 = .resolved y →
      internalLinkRoute tcfg p1 cfg hash db identityId userId roles rt sid
          now =
        internalLinkRoute tcfg p2 cfg hash db identityId userId roles rt sid
          now) := by
  refine ⟨?_, ?_, ?_, ?_, ?_⟩
  · intro hfresh
    simp only [linkIdentityToUser,
      updateUserIdAndRoles_not_found db identityId userId roles now hfresh]
  · intro ident tokens db' heq
    simp only [linkIdentityToUser] at heq
    split at heq
    · exact absurd (congrArg Prod.fst heq) (by simp)
    · rename_i ident0 hu
      have h1 := congrArg Prod.fst heq
      have h2 := congrArg Prod.snd heq
      simp only at h1 h2
      injection h1 with h1
      have hident : ident0 = ident := congrArg Prod.fst h1
      have htok := congrArg Prod.snd h1
      simp only at htok
      obtain ⟨hid, huid, hroles⟩ :=
        updateUserIdAndRoles_success db identityId userId roles now ident0 hu
      subst hident
      refine ⟨hid, huid, hroles, ?_, ?_, ?_, ?_, ?_, ?_⟩
      · rw [← htok]
        rfl
      · rw [← htok]
        rfl
      · rw [← htok]
        rfl
      · rw [← htok]
        rfl
      · rw [← htok]
        exact generateTokens_sessionId cfg hash _ ident0 rt sid now none none
      · refine ⟨{ id := sid,
                  identity_id := ident0.id,
                  tenant_id := ident0.tenantId,
                  token_hash := hash rt,
                  expires_at :=
                    now + parseExpiry cfg.refreshTokenExpiry * 1000,
                  revoked := 0,
                  ip_address := none,
                  user_agent := none,
                  created_at := now }, ?_, rfl, rfl, rfl, rfl⟩
        rw [← h2, generateTokens_sessions,
          updateUserIdAndRoles_sessions db identityId userId roles now]
  · intro tcfg hmode hbody
    obtain ⟨m, ts⟩ := tcfg
    simp only at hmode
    subst hmode
    simp only [internalLinkRoute, createTenantMiddleware]
    rw [if_pos hbody]
  · intro tcfg hmode
    obtain ⟨m, ts⟩ := tcfg
    simp only at hmode
    subst hmode
    simp only [internalLinkRoute, createTenantMiddleware]
  · intro tcfg p1 p2 x y hp1 hp2
    simp only [internalLinkRoute, hp1, hp2]

/-- The identity value produced by the C8 witness link call. -/
def identC8res : Identity :=
  { id := "id8", tenantId := "app1", provider := "google",
    providerUserId := "g8", email := "x@y", name := none,
    profileImageUrl := none, userId := some "alice", roles := ["user"],
    metadata := none, createdAt := 0, updatedAt := 7 }

/-- The token pair produced by the C8 witness link call. -/
def tokC8res : TokenPair :=
  { accessToken :=
      { payload :=
          { sub := "id8", tenant := "app1", userId := some "alice",
            email := "x@y", name := none, profileImageUrl := none,
            roles := ["user"], sessionId := "sess8", iat := 0, exp := 900 },
        secret := "s8" },
    refreshToken := "rt8", expiresIn := 900 }

/-- The database produced by the C8 witness link call. -/
def dbC8res : Db :=
  { identities :=
      [{ id := "id8", tenant_id := "app1", provider := "google",
         provider_user_id := "g8", email := "x@y", name := none,
         profile_image_url := none, user_id := some "alice",
         roles := some "user", metadata := none, created_at := 0,
         updated_at := 7 }],
    sessions :=
      [{ id := "sess8", identity_id := "id8", tenant_id := "app1",
         token_hash := "rt8", expires_at := 604800007, revoked := 0,
         ip_address := none, user_agent := none, created_at := 7 }] }

/-- C8 witness: concrete link calls — an unknown identity id yields
NotFound with the database unchanged; a successful link yields the updated
identity and fresh session claims; multi mode without a selector is
rejected while single mode without one reaches the service. -/
theorem claim_C8_link_contract_witness :
    (linkIdentityToUser cfgC8 (fun t => t)
        { identities := [], sessions := [] } "missing" "alice" ["user"]
        "rt8" "sess8" 7 =
      (.failure { code := .NOT_FOUND, message := "Identity not found" },
        { identities := [], sessions := [] })) ∧
    identC8res.userId = some "alice" ∧
    tokC8res.accessToken.payload.sessionId = "sess8" ∧
    (internalLinkRoute { mode := .multi, tenants := ["app1"] } none cfgC8
        (fun t => t) dbC8 "id8" "alice" ["user"] "rt8" "sess8" 7 =
      (.failure { code := .INVALID_INPUT,
                  message := "tenant parameter required" }, dbC8)) ∧
    (internalLinkRoute { mode := .single, tenants := ["app1"] } none cfgC8
        (fun t => t) dbC8 "id8" "alice" ["user"] "rt8" "sess8" 7 =
      linkIdentityToUser cfgC8 (fun t => t) dbC8 "id8" "alice" ["user"]
        "rt8" "sess8" 7) := by
  have h := claim_C8_link_contract cfgC8 (fun t => t) dbC8 "id8" "alice"
    ["user"] "rt8" "sess8" 7
  have hempty := claim_C8_link_contract cfgC8 (fun t => t)
    { identities := [], sessions := [] } "missing" "alice" ["user"] "rt8"
    "sess8" 7
  have heq : linkIdentityToUser cfgC8 (fun t => t) dbC8 "id8" "alice"
      ["user"] "rt8" "sess8" 7 =
      (.success (identC8res, tokC8res), dbC8res) := by decide
  have hsucc := h.2.1 identC8res tokC8res dbC8res heq
  exact ⟨hempty.1 (by intro r hr; cases hr), hsucc.2.1,
    hsucc.2.2.2.2.2.2.2.1, h.2.2.2.1 { mode := .multi, tenants := ["app1"] }
      rfl,
    h.2.2.1 { mode := .single, tenants := ["app1"] } rfl (by decide)⟩

/-- One pass of the revoke-all-by-user-id loop is a no-op on a database in
which every session of the listed identities is already revoked. -/
theorem foldl_revokeUserStep_noop (db : Db) (ids : List String)
    (h : ∀ i ∈ ids, ∀ s ∈ db.sessions, s.identity_id = i →
      s.revoked = 1) :
    ids.foldl revokeUserStep (0, db) = (0, db) := by
  induction ids with
  | nil => rfl
  | cons i ids ih =>
    have hfil : db.sessions.filter (fun s =>
        s.identity_id == i && s.revoked == 0) = [] := by
      rw [List.filter_eq_nil_iff]
      intro s hsm hcontra
      simp only [Bool.and_eq_true, beq_iff_eq] at hcontra
      have := h i (List.mem_cons_self i ids) s hsm hcontra.1
      omega
    have hmap : db.sessions.map (fun s : SessionRow =>
        if (s.identity_id == i && s.revoked == 0) = true then
          { s with revoked := 1 }
        else s) = db.sessions := by
      have h1 : ∀ s ∈ db.sessions, (fun s : SessionRow =>
          if (s.identity_id == i && s.revoked == 0) = true then
            { s with revoked := 1 }
          else s) s = id s := by
        intro s hsm
        simp only [id]
        rw [if_neg]
        intro hcontra
        simp only [Bool.and_eq_true, beq_iff_eq] at hcontra
        have := h i (List.mem_cons_self i ids) s hsm hcontra.1
        omega
      rw [List.map_congr_left h1, List.map_id]
    have hstep : revokeUserStep (0, db) i = (0, db) := by
      simp only [revokeUserStep, hfil, hmap, List.length_nil]
    rw [List.foldl_cons, hstep,
      ih (fun i0 hi0 => h i0 (List.mem_cons_of_mem i hi0))]

/-- C9: Revocation-count asymmetry: revokeAllByIdentityId (and its
token-service wrapper revokeAllIdentitySessions) counts every session row
whose identity id matches, already-revoked rows included, while
revokeAllByUserId (wrapped by revokeAllUserSessions) counts only sessions
that were not yet revoked; hence for an identity all of whose sessions are
already revoked the identity-level call returns a positive count while the
user-level call over the same sessions returns 0. -/
theorem claim_C9_revocation_count_asymmetry (db : Db) (iid t u : String) :
    ((revokeAllByIdentityId db iid).1 =
      (db.sessions.filter (fun s => s.identity_id == iid)).length) ∧
    ((revokeAllIdentitySessions db iid).1 =
      .success
        ((db.sessions.filter (fun s => s.identity_id == iid)).length)) ∧
    ((∃ s ∈ db.sessions, s.identity_id = iid) →
      0 < (revokeAllByIdentityId db iid).1) ∧
    ((∀ i ∈ db.identities, i.tenant_id = t → i.user_id = some u →
        ∀ s ∈ db.sessions, s.identity_id = i.id → s.revoked = 1) →
      (revokeAllByUserId db t u).1 = 0) ∧
    ((revokeAllUserSessions db t u).1 =
      .success (revokeAllByUserId db t u).1) := by
  refine ⟨rfl, rfl, ?_, ?_, rfl⟩
  · rintro ⟨s, hsm, hsid⟩
    have hmem : s ∈ db.sessions.filter (fun s => s.identity_id == iid) :=
      List.mem_filter.mpr ⟨hsm, by simp [hsid]⟩
    exact List.length_pos_of_mem hmem
  · intro hall
    simp only [revokeAllByUserId]
    by_cases hids : ((db.identities.filter (fun i =>
        i.tenant_id == t && i.user_id == some u)).map
          (fun i => i.id)).isEmpty = true
    · rw [if_pos hids]
    · rw [if_neg hids]
      rw [foldl_revokeUserStep_noop db _ ?_]
      intro i0 hi0 s hsm hsid
      rcases List.mem_map.mp hi0 with ⟨irow, hirow, hieq⟩
      have hfil := List.of_mem_filter hirow
      have hidm := List.mem_of_mem_filter hirow
      simp only [Bool.and_eq_true, beq_iff_eq] at hfil
      exact hall irow hidm hfil.1 hfil.2 s hsm (hieq ▸ hsid)

/-- The linked identity whose sessions are all revoked, for the C9 witness. -/
def dbC9 : Db :=
  { identities :=
      [{ id := "i9", tenant_id := "t9", provider := "google",
         provider_user_id := "g9", email := "e@f", name := none,
         profile_image_url := none, user_id := some "u9",
         roles := some "user", metadata := none, created_at := 0,
         updated_at := 0 }],
    sessions :=
      [{ id := "s9", identity_id := "i9", tenant_id := "t9",
         token_hash := "h9", expires_at := 100, revoked := 1,
         ip_address := none, user_agent := none, created_at := 0 }] }

/-- C9 witness: on a database whose single identity has only already
revoked sessions, the identity-level call counts 1 while the user-level
call counts 0. -/
theorem claim_C9_revocation_count_asymmetry_witness :
    0 < (revokeAllByIdentityId dbC9 "i9").1 ∧
    (revokeAllByUserId dbC9 "t9" "u9").1 = 0 ∧
    (revokeAllByIdentityId dbC9 "i9").1 = 1 := by
  have h := claim_C9_revocation_count_asymmetry dbC9 "i9" "t9" "u9"
  refine ⟨h.2.2.1 ?_, h.2.2.2.1 ?_, h.1.trans (by decide)⟩
  · refine ⟨{ id := "s9",
              identity_id := "i9",
              tenant_id := "t9",
              token_hash := "h9",
              expires_at := 100,
              revoked := 1,
              ip_address := none,
              user_agent := none,
              created_at := 0 }, by decide, rfl⟩
  · intro i hi ht hu s hs hsid
    simp only [dbC9, List.mem_singleton] at hs
    subst hs
    rfl

end Persona
